import Mathlib

/-!
Verification of the message parser and ingestion pipeline in
`budget_app.py` (classes `Transaction`, `MessageParser`, `BankConnector`,
`RealTimeBudgetApp`).

The Python code is shallowly embedded: regular-expression searches are
modelled by explicit leftmost-match scanning functions that follow the
concrete patterns in the source, Python `float` values of parsed decimal
tokens are modelled as exact rationals, exceptions escaping `parse`
are modelled by an explicit `ParseResult.raised` case, and the wall
clock (`datetime.utcnow().strftime("%Y-%m-%d")`) is passed in as an
explicit `today : String` argument.

Unicode notes: `re.IGNORECASE` on `[A-Z]` is modelled as ASCII letters,
`\s` as the common ASCII whitespace characters and `\d` as ASCII
digits; all inputs considered here are within that fragment.
-/

namespace BudgetApp

/-- The `Transaction` dataclass (budget_app.py lines 18-26): `date`,
`description`, `amount`, `currency`, optional `category`.  The Python
`float` amount is modelled as an exact rational. -/
structure Transaction where
  date : String
  description : String
  amount : ℚ
  currency : String
  category : Option String := none
deriving DecidableEq, Repr

/-- ASCII letter, the fragment of `[A-Z]` under `re.IGNORECASE` used here. -/
def isAsciiLetter (c : Char) : Bool :=
  ('a' ≤ c && c ≤ 'z') || ('A' ≤ c && c ≤ 'Z')

/-- ASCII digit, the fragment of `\d` used here. -/
def isDigitChar (c : Char) : Bool :=
  '0' ≤ c && c ≤ '9'

/-- ASCII whitespace, the fragment of `\s` (and of `str.strip`) used here. -/
def isSpaceChar (c : Char) : Bool :=
  c = ' ' || c = '\t' || c = '\n' || c = '\r' || c = '\x0b' || c = '\x0c'

/-- Does the character list start with the given needle? -/
def seqStartsWith : List Char → List Char → Bool
  | _, [] => true
  | [], _ :: _ => false
  | c :: cs, d :: ds => c = d && seqStartsWith cs ds

/-- Python's `needle in hay` on strings: contiguous-substring containment. -/
def containsSeq (hay needle : List Char) : Bool :=
  match hay with
  | [] => needle.isEmpty
  | _ :: t => seqStartsWith hay needle || containsSeq t needle

/-- The `re.search` driver: try the position matcher at each start position
from the left, returning the first success (leftmost match). -/
def searchFrom {α : Type} (p : List Char → Option α) : List Char → Option α
  | [] => p []
  | c :: rest =>
    match p (c :: rest) with
    | some a => some a
    | none => searchFrom p rest

/-- The five recognized currency glyphs of `amount_re`. -/
def isCurrencyGlyph (c : Char) : Bool :=
  c = '$' || c = '€' || c = '£' || c = '₹' || c = '¥'

/-- Digit or comma: the character class `[\d,]` of `amount_re`. -/
def isDigitComma (c : Char) : Bool :=
  isDigitChar c || c = ','

/-- The currency group of `amount_re` at a fixed position:
`[A-Z]{3}` (any three letters, `re.IGNORECASE`) or a single glyph. -/
def currencyAt (cs : List Char) : Option (List Char × List Char) :=
  match cs with
  | a :: b :: c :: rest =>
    if isAsciiLetter a && isAsciiLetter b && isAsciiLetter c then some ([a, b, c], rest)
    else if isCurrencyGlyph a then some ([a], b :: c :: rest)
    else none
  | a :: rest => if isCurrencyGlyph a then some ([a], rest) else none
  | [] => none

/-- The optional fraction `(?:\.\d+)?` of `amount_re` at a position. -/
def fracAt (cs : List Char) : List Char :=
  match cs with
  | '.' :: rest =>
    let ds := rest.takeWhile isDigitChar
    if ds.isEmpty then [] else '.' :: ds
  | _ => []

/-- One attempted match of `amount_re`
(`(?P<currency>[A-Z]{3}|[$€£₹¥])\s*(?P<amount>[\d,]+(?:\.\d+)?)`,
budget_app.py lines 67-70) at a fixed position; yields the two groups. -/
def matchAmountAt (cs : List Char) : Option (List Char × List Char) :=
  match currencyAt cs with
  | none => none
  | some (cur, rest) =>
    let rest2 := rest.dropWhile isSpaceChar
    let digs := rest2.takeWhile isDigitComma
    if digs.isEmpty then none
    else some (cur, digs ++ fracAt (rest2.drop digs.length))

/-- Table `MessageParser.currency_symbols` (budget_app.py line 62). -/
def currency_symbols : List (String × String) :=
  [("$", "USD"), ("€", "EUR"), ("£", "GBP"), ("₹", "INR"), ("¥", "JPY")]

/-- Lookup `self.currency_symbols.get(currency, currency)` (line 107). -/
def symbolsLookup (cur : String) : String :=
  match currency_symbols.find? (fun p => p.1 == cur) with
  | some p => p.2
  | none => cur

/-- Python `str.upper` on a character list (ASCII fragment). -/
def listUpper (cs : List Char) : List Char := cs.map Char.toUpper

/-- Rebuild a string from characters. -/
def listToStr (cs : List Char) : String := String.mk cs

/-- Value of a digit string. -/
def digitsVal (cs : List Char) : Nat :=
  cs.foldl (fun acc c => acc * 10 + (c.toNat - 48)) 0

/-- Outcome of `MessageParser._parse_amount`: no regex match, a raised
`ValueError` from `float`, or an amount/currency pair. -/
inductive AmountResult
  | noMatch
  | error
  | ok (amount : ℚ) (currency : String)
deriving DecidableEq, Repr

/-- Conversion `float(match.group("amount").replace(",", ""))` (line 108):
comma-stripping then decimal conversion; `float("")` raises, modelled
as `none`.  The decimal string `ip.fs` denotes the exact rational
`(ip·10^k + fs) / 10^k` with `k` the fraction length. -/
def floatOfAmountToken (cs : List Char) : Option ℚ :=
  let cleaned := cs.filter (fun c => !(c == ','))
  if cleaned.isEmpty then none
  else
    let ip := cleaned.takeWhile isDigitChar
    let rest := cleaned.drop ip.length
    match rest with
    | [] => some (mkRat (digitsVal ip) 1)
    | '.' :: fs => some (mkRat (digitsVal ip * 10 ^ fs.length + digitsVal fs) (10 ^ fs.length))
    | _ => none

/-- Method `MessageParser._parse_amount` (budget_app.py lines 102-109). -/
def parse_amount (message : String) : AmountResult :=
  match searchFrom matchAmountAt message.toList with
  | none => AmountResult.noMatch
  | some (cur, amt) =>
    let currency := symbolsLookup (listToStr (listUpper cur))
    match floatOfAmountToken amt with
    | none => AmountResult.error
    | some q => AmountResult.ok q currency

/-- Backtracking alternatives for `\d{1,2}`: the two-digit reading first
(greedy), then the one-digit reading, each with the remaining input. -/
def digits12 (cs : List Char) : List (List Char × List Char) :=
  match cs with
  | a :: b :: r =>
    if isDigitChar a then
      (if isDigitChar b then [([a, b], r)] else []) ++ [([a], b :: r)]
    else []
  | [a] => if isDigitChar a then [([a], [])] else []
  | [] => []

/-- Pattern `\d{4}`: exactly four digits at a position. -/
def digits4 (cs : List Char) : Option (List Char × List Char) :=
  match cs with
  | a :: b :: c :: d :: r =>
    if isDigitChar a && isDigitChar b && isDigitChar c && isDigitChar d then
      some ([a, b, c, d], r)
    else none
  | _ => none

/-- First success of `f` over a list of alternatives, in order. -/
def firstSome {α β : Type} (f : α → Option β) : List α → Option β
  | [] => none
  | a :: as =>
    match f a with
    | some b => some b
    | none => firstSome f as

/-- Position matcher for `\d{1,2}<sep>\d{1,2}<sep>\d{4}` — the shapes
`date_res[0]` (sep `/`) and `date_res[2]` (sep `-`) of budget_app.py
lines 72 and 74.  Returns the matched text. -/
def sepNumDateAt (sep : Char) (cs : List Char) : Option (List Char) :=
  firstSome (fun p =>
    match p.2 with
    | s1 :: r2 =>
      if s1 = sep then
        firstSome (fun q =>
          match q.2 with
          | s2 :: r4 =>
            if s2 = sep then
              match digits4 r4 with
              | some (y, _) => some (p.1 ++ [sep] ++ q.1 ++ [sep] ++ y)
              | none => none
            else none
          | [] => none) (digits12 r2)
      else none
    | [] => none) (digits12 cs)

/-- Position matcher for `\d{4}-\d{1,2}-\d{1,2}` (`date_res[1]`, line 73). -/
def isoShapeAt (cs : List Char) : Option (List Char) :=
  match digits4 cs with
  | some (y, r1) =>
    match r1 with
    | '-' :: r2 =>
      firstSome (fun p =>
        match p.2 with
        | '-' :: r4 =>
          firstSome (fun q => some (y ++ ['-'] ++ p.1 ++ ['-'] ++ q.1)) (digits12 r4)
        | _ => none) (digits12 r2)
    | _ => none
  | none => none

/-- Exactly `n` ASCII letters at a position. -/
def alphaExact : Nat → List Char → Option (List Char × List Char)
  | 0, cs => some ([], cs)
  | n + 1, c :: cs =>
    if isAsciiLetter c then (alphaExact n cs).map (fun p => (c :: p.1, p.2)) else none
  | _ + 1, [] => none

/-- Position matcher for `\d{1,2} [A-Za-z]{3,9} \d{4}` (`date_res[3]`,
line 75); the letter run is greedy, so lengths 9 down to 3 are tried. -/
def textShapeAt (cs : List Char) : Option (List Char) :=
  firstSome (fun p =>
    match p.2 with
    | ' ' :: r2 =>
      firstSome (fun n =>
        match alphaExact n r2 with
        | some (w, r3) =>
          match r3 with
          | ' ' :: r4 =>
            match digits4 r4 with
            | some (y, _) => some (p.1 ++ [' '] ++ w ++ [' '] ++ y)
            | none => none
          | _ => none
        | none => none) [9, 8, 7, 6, 5, 4, 3]
    | _ => none) (digits12 cs)

/-- The loop over `date_res` in `_extract_date` (lines 96-99): each
pattern is searched over the whole message in list order and the first
matching pattern's leftmost match is returned. -/
def findDateToken (cs : List Char) : Option (List Char) :=
  match searchFrom (sepNumDateAt '/') cs with
  | some m => some m
  | none =>
    match searchFrom isoShapeAt cs with
    | some m => some m
    | none =>
      match searchFrom (sepNumDateAt '-') cs with
      | some m => some m
      | none => searchFrom textShapeAt cs

/-- Field `%d` of `strptime`: the alternation `3[01]|[12]\d|0[1-9]|[1-9]`,
as a list of (value, rest) alternatives in regex priority order. -/
def pDay (cs : List Char) : List (Nat × List Char) :=
  (match cs with
   | '3' :: c :: r => if c = '0' || c = '1' then [(30 + (c.toNat - 48), r)] else []
   | _ => []) ++
  (match cs with
   | a :: b :: r =>
     if (a = '1' || a = '2') && isDigitChar b then
       [((a.toNat - 48) * 10 + (b.toNat - 48), r)]
     else []
   | _ => []) ++
  (match cs with
   | '0' :: b :: r => if isDigitChar b && !(b == '0') then [(b.toNat - 48, r)] else []
   | _ => []) ++
  (match cs with
   | a :: r => if isDigitChar a && !(a == '0') then [(a.toNat - 48, r)] else []
   | _ => [])

/-- Field `%m` of `strptime`: the alternation `1[0-2]|0[1-9]|[1-9]`. -/
def pMonth (cs : List Char) : List (Nat × List Char) :=
  (match cs with
   | '1' :: c :: r => if c = '0' || c = '1' || c = '2' then [(10 + (c.toNat - 48), r)] else []
   | _ => []) ++
  (match cs with
   | '0' :: b :: r => if isDigitChar b && !(b == '0') then [(b.toNat - 48, r)] else []
   | _ => []) ++
  (match cs with
   | a :: r => if isDigitChar a && !(a == '0') then [(a.toNat - 48, r)] else []
   | _ => [])

/-- Case-insensitive literal name at a position; returns the rest. -/
def nameAt : List Char → List Char → Option (List Char)
  | cs, [] => some cs
  | c :: cs, n :: ns => if c.toLower = n then nameAt cs ns else none
  | [], _ :: _ => none

/-- Month abbreviations recognized by `%b` (lower-cased; matching is
case-insensitive). -/
def monthAbbrevs : List (String × Nat) :=
  [("jan", 1), ("feb", 2), ("mar", 3), ("apr", 4), ("may", 5), ("jun", 6),
   ("jul", 7), ("aug", 8), ("sep", 9), ("oct", 10), ("nov", 11), ("dec", 12)]

/-- Full month names recognized by `%B`. -/
def monthNames : List (String × Nat) :=
  [("january", 1), ("february", 2), ("march", 3), ("april", 4), ("may", 5),
   ("june", 6), ("july", 7), ("august", 8), ("september", 9), ("october", 10),
   ("november", 11), ("december", 12)]

/-- Month-name field (`%b` or `%B`) as a list of alternatives. -/
def pMonthName (names : List (String × Nat)) (cs : List Char) : List (Nat × List Char) :=
  names.foldr (fun p acc =>
    match nameAt cs p.1.toList with
    | some r => (p.2, r) :: acc
    | none => acc) []

/-- A literal whitespace in a `strptime` format matches `\s+`: one or
more whitespace characters (greedily; nothing after it can be
whitespace, so no backtracking is needed). -/
def wsPlus (cs : List Char) : Option (List Char) :=
  let ws := cs.takeWhile isSpaceChar
  if ws.isEmpty then none else some (cs.drop ws.length)

/-- Gregorian leap-year rule used by `datetime`. -/
def isLeapYear (y : Nat) : Bool :=
  (y % 4 == 0 && y % 100 != 0) || y % 400 == 0

/-- Days in a month, as validated by the `datetime` constructor. -/
def daysInMonth (y m : Nat) : Nat :=
  if m == 2 then (if isLeapYear y then 29 else 28)
  else if m == 4 || m == 6 || m == 9 || m == 11 then 30
  else 31

/-- The `datetime(y, m, d)` constructor's validation (year ≥ 1 and a
real calendar day); a failure raises `ValueError`, which
`_normalize_date` catches and skips. -/
def validYMD (y m d : Nat) : Bool :=
  1 ≤ y && 1 ≤ m && m ≤ 12 && 1 ≤ d && d ≤ daysInMonth y m

/-- Format `%d<sep>%m<sep>%Y` as a full-string parse to `(y, m, d)`. -/
def fmtDMY (sep : Char) (cs : List Char) : Option (Nat × Nat × Nat) :=
  firstSome (fun d =>
    match d.2 with
    | s1 :: r2 =>
      if s1 = sep then
        firstSome (fun m =>
          match m.2 with
          | s2 :: r4 =>
            if s2 = sep then
              match digits4 r4 with
              | some (y, rest) =>
                if rest.isEmpty then some (digitsVal y, m.1, d.1) else none
              | none => none
            else none
          | [] => none) (pMonth r2)
      else none
    | [] => none) (pDay cs)

/-- Format `%m<sep>%d<sep>%Y` as a full-string parse to `(y, m, d)`. -/
def fmtMDY (sep : Char) (cs : List Char) : Option (Nat × Nat × Nat) :=
  firstSome (fun m =>
    match m.2 with
    | s1 :: r2 =>
      if s1 = sep then
        firstSome (fun d =>
          match d.2 with
          | s2 :: r4 =>
            if s2 = sep then
              match digits4 r4 with
              | some (y, rest) =>
                if rest.isEmpty then some (digitsVal y, m.1, d.1) else none
              | none => none
            else none
          | [] => none) (pDay r2)
      else none
    | [] => none) (pMonth cs)

/-- Format `%Y-%m-%d` as a full-string parse to `(y, m, d)`. -/
def fmtYMD (cs : List Char) : Option (Nat × Nat × Nat) :=
  match digits4 cs with
  | some (y, r1) =>
    (match r1 with
     | '-' :: r2 =>
       firstSome (fun m =>
         match m.2 with
         | '-' :: r4 =>
           firstSome (fun d =>
             if d.2.isEmpty then some (digitsVal y, m.1, d.1) else none) (pDay r4)
         | _ => none) (pMonth r2)
     | _ => none)
  | none => none

/-- Formats `%d %b %Y` and `%d %B %Y` as a full-string parse to `(y, m, d)`. -/
def fmtDNameY (names : List (String × Nat)) (cs : List Char) : Option (Nat × Nat × Nat) :=
  firstSome (fun d =>
    match wsPlus d.2 with
    | some r2 =>
      firstSome (fun m =>
        match wsPlus m.2 with
        | some r4 =>
          match digits4 r4 with
          | some (y, rest) =>
            if rest.isEmpty then some (digitsVal y, m.1, d.1) else none
          | none => none
        | none => none) (pMonthName names r2)
    | none => none) (pDay cs)

/-- List `MessageParser.date_formats` (budget_app.py lines 77-85) as a list
of `strptime`-style full-string readers, in source order. -/
def date_formats : List (List Char → Option (Nat × Nat × Nat)) :=
  [fmtDMY '/', fmtMDY '/', fmtYMD, fmtDMY '-', fmtMDY '-',
   fmtDNameY monthAbbrevs, fmtDNameY monthNames]

/-- Left-pad a number to two digits, as `strftime %m` / `%d` do. -/
def pad2 (n : Nat) : String :=
  if n < 10 then "0" ++ toString n else toString n

/-- Left-pad a number to four digits, as `strftime %Y` does. -/
def pad4 (n : Nat) : String :=
  if n < 10 then "000" ++ toString n
  else if n < 100 then "00" ++ toString n
  else if n < 1000 then "0" ++ toString n
  else toString n

/-- Output formatting `datetime.strftime("%Y-%m-%d")`. -/
def formatISO (y m d : Nat) : String :=
  pad4 y ++ "-" ++ pad2 m ++ "-" ++ pad2 d

/-- Method `MessageParser._normalize_date` (budget_app.py lines 87-93): try
each `date_formats` entry in order, skipping those that fail to parse
or produce an invalid calendar date; fall back to the text itself. -/
def normalize_date (text : String) : String :=
  match firstSome (fun f =>
      match f text.toList with
      | some (y, m, d) => if validYMD y m d then some (y, m, d) else none
      | none => none) date_formats with
  | some (y, m, d) => formatISO y m d
  | none => text

/-- Method `MessageParser._extract_date` (budget_app.py lines 95-100).  The
`datetime.utcnow().strftime("%Y-%m-%d")` fallback is the explicit
`today` argument. -/
def extract_date (message today : String) : String :=
  match findDateToken message.toList with
  | some m => normalize_date (listToStr m)
  | none => today

/-- Set `MessageParser.debit_keywords` (budget_app.py line 63). -/
def debit_keywords : List String :=
  ["debit", "debited", "withdrawn", "purchase", "spent"]

/-- Set `MessageParser.credit_keywords` (budget_app.py line 64). -/
def credit_keywords : List String :=
  ["credit", "credited", "deposit", "received"]

/-- Set `MessageParser.ignore_keywords` (budget_app.py line 65). -/
def ignore_keywords : List String :=
  ["failed", "reversed", "reversal"]

/-- Lower-casing `message.lower()` as a character list (ASCII fragment). -/
def lowerList (s : String) : List Char := s.toList.map Char.toLower

/-- Test `any(k in lower_msg for k in keywords)`. -/
def hasKeyword (ks : List String) (lower : List Char) : Bool :=
  ks.any (fun k => containsSeq lower k.toList)

/-- Python `str.strip()`: drop leading and trailing whitespace. -/
def pyStrip (s : String) : String :=
  listToStr (((s.toList.dropWhile isSpaceChar).reverse.dropWhile isSpaceChar).reverse)

/-- Outcome of `_parse_message`: an escaped exception, `None`, or a
`Transaction`. -/
inductive ParseResult
  | raised
  | none
  | some (t : Transaction)
deriving DecidableEq, Repr

/-- Method `MessageParser._parse_message` (budget_app.py lines 111-129), with
the wall-clock date passed as `today`. -/
def parse_message (message today : String) : ParseResult :=
  let lower := lowerList message
  if hasKeyword ignore_keywords lower then ParseResult.none
  else
    match parse_amount message with
    | AmountResult.noMatch => ParseResult.none
    | AmountResult.error => ParseResult.raised
    | AmountResult.ok amount currency =>
      let sign : ℚ := if hasKeyword debit_keywords lower then -1
                      else if hasKeyword credit_keywords lower then 1
                      else 1
      let date := extract_date message today
      let description := pyStrip message
      ParseResult.some
        { date := date, description := description,
          amount := sign * amount, currency := currency }

/-- Method `MessageParser.parse_sms` (budget_app.py lines 131-133). -/
def parse_sms (message today : String) : ParseResult :=
  parse_message message today

/-- Method `MessageParser.parse_email` (budget_app.py lines 135-137). -/
def parse_email (message today : String) : ParseResult :=
  parse_message message today

/-- The dedup key `(txn.date, txn.description, txn.amount)` of
`BankConnector.stream_transactions` (budget_app.py line 53). -/
def txnKey (t : Transaction) : String × String × ℚ :=
  (t.date, t.description, t.amount)

/-- One poll cycle of `stream_transactions` (budget_app.py lines 51-57):
each fetched transaction whose key is not in `seen` is forwarded and its
key added to `seen`.  Returns the forwarded transactions and the
updated `seen` set (modelled as a list of keys). -/
def streamStep (seen : List (String × String × ℚ)) (batch : List Transaction) :
    List Transaction × List (String × String × ℚ) :=
  batch.foldl (fun acc txn =>
    if txnKey txn ∈ acc.2 then acc
    else (acc.1 ++ [txn], txnKey txn :: acc.2)) ([], seen)

/-- One generator instance of `stream_transactions` run over a sequence
of poll batches.  The local `seen = set()` (budget_app.py line 50)
starts empty for every new generator and is threaded across the polls
of that instance.  Returns everything the instance yields. -/
def streamRun (batches : List (List Transaction)) : List Transaction :=
  (batches.foldl (fun acc b =>
    let fs := streamStep acc.2 b
    (acc.1 ++ fs.1, fs.2)) (([] : List Transaction), ([] : List (String × String × ℚ)))).1

/-- The supervisor loop of `RealTimeBudgetApp.start` (budget_app.py
lines 208-221) around a crash: the candidates forwarded to the ledger
are those yielded before the failure plus those yielded by the fresh
generator created when `_stream_bank` is restarted — the restarted call
to `self.bank.stream_transactions()` begins with a new empty `seen`. -/
def supervisorForwarded (beforeCrash afterCrash : List (List Transaction)) :
    List Transaction :=
  streamRun beforeCrash ++ streamRun afterCrash

/-- Evaluation helper: when no ignore keyword and no debit keyword is
present and the amount match yields `q`, the parse result is the record
with amount `+q` (the sign factor is 1 in both remaining branches). -/
theorem parse_sms_eval_pos (msg today : String) (q : ℚ) (c : String)
    (hi : hasKeyword ignore_keywords (lowerList msg) = false)
    (ha : parse_amount msg = AmountResult.ok q c)
    (hd : hasKeyword debit_keywords (lowerList msg) = false) :
    parse_sms msg today =
      ParseResult.some
        { date := extract_date msg today, description := pyStrip msg,
          amount := q, currency := c } := by
  simp [parse_sms, parse_message, hi, ha, hd, ite_self, one_mul]

/-- Evaluation helper: when no ignore keyword is present, a debit
keyword is present, and the amount match yields `q`, the parse result
is the record with amount `-q`. -/
theorem parse_sms_eval_neg (msg today : String) (q : ℚ) (c : String)
    (hi : hasKeyword ignore_keywords (lowerList msg) = false)
    (ha : parse_amount msg = AmountResult.ok q c)
    (hd : hasKeyword debit_keywords (lowerList msg) = true) :
    parse_sms msg today =
      ParseResult.some
        { date := extract_date msg today, description := pyStrip msg,
          amount := -q, currency := c } := by
  simp [parse_sms, parse_message, hi, ha, hd, neg_one_mul]

/-- Evaluation helper: when an ignore keyword occurs in the lower-cased
message, parsing returns `None` at once. -/
theorem parse_sms_eval_ignore (msg today : String)
    (hi : hasKeyword ignore_keywords (lowerList msg) = true) :
    parse_sms msg today = ParseResult.none := by
  simp [parse_sms, parse_message, hi]

/-- Evaluation helper: when a `date_res` pattern matches, the extracted
date is the normalized matched text (the clock is not consulted). -/
theorem extract_date_of_token (msg today : String) (tok : List Char)
    (h : findDateToken msg.toList = some tok) :
    extract_date msg today = normalize_date (listToStr tok) := by
  unfold extract_date
  rw [h]

/-- C1 counterexample: the input `"50"` contains an amount token and no
currency signal, yet `parse` yields no record at all (the claim demands
a record with currency `"USD"`): the currency group of `amount_re` is
mandatory, not optional. -/
theorem c1_counterexample : parse_sms "50" "2024-01-01" = ParseResult.none := by
  decide

/-- C1 (amended): when `amount_re` finds no match — in particular when
no three-letter run or currency glyph immediately precedes the digits —
`parse` returns no record rather than defaulting the currency to
`"USD"`; when a match is found, a recognized glyph is mapped through
`currency_symbols` and any other (upper-cased) currency text is used
verbatim. -/
theorem c1_thm :
    (∀ msg today, parse_amount msg = AmountResult.noMatch →
      parse_sms msg today = ParseResult.none) ∧
    (symbolsLookup "$" = "USD" ∧ symbolsLookup "€" = "EUR" ∧ symbolsLookup "£" = "GBP" ∧
      symbolsLookup "₹" = "INR" ∧ symbolsLookup "¥" = "JPY") ∧
    (∀ cur, currency_symbols.find? (fun p => p.1 == cur) = Option.none →
      symbolsLookup cur = cur) := by
  refine ⟨fun msg today h => ?_, by decide, fun cur hc => ?_⟩
  · show parse_message msg today = ParseResult.none
    simp only [parse_message, h]
    split <;> rfl
  · unfold symbolsLookup
    rw [hc]

/-- C1 witness: the amended theorem applied at concrete inputs. -/
theorem c1_witness :
    parse_sms "hello" "2024-01-01" = ParseResult.none ∧ symbolsLookup "ZZZ" = "ZZZ" :=
  ⟨c1_thm.1 "hello" "2024-01-01" (by decide), c1_thm.2.2 "ZZZ" (by decide)⟩

/-- C2 counterexample: on the spec's own scenario input the produced
description is the whole stripped message, not the anchored
counterparty `"PAYPAL"`. -/
theorem c2_counterexample :
    parse_sms "You were credited $50.23 from PAYPAL 2023/05/12" "2024-03-01" =
      ParseResult.some
        { date := "2024-03-01",
          description := "You were credited $50.23 from PAYPAL 2023/05/12",
          amount := mkRat 5023 100, currency := "USD" } ∧
    ("You were credited $50.23 from PAYPAL 2023/05/12" : String) ≠ "PAYPAL" := by
  refine ⟨?_, by decide⟩
  rw [parse_sms_eval_pos _ _ (mkRat 5023 100) "USD" (by decide) (by decide) (by decide)]
  decide

/-- C2 (amended): the description of every record returned by `parse`
is the whole input message stripped of surrounding whitespace; there is
no anchor-word extraction and no `"transaction"` sentinel. -/
theorem c2_thm (msg today : String) (t : Transaction)
    (h : parse_sms msg today = ParseResult.some t) :
    t.description = pyStrip msg := by
  simp only [parse_sms, parse_message] at h
  split at h
  · exact ParseResult.noConfusion h
  · split at h
    · exact ParseResult.noConfusion h
    · exact ParseResult.noConfusion h
    · injection h with h2
      subst h2
      rfl

/-- C2 witness: the amended theorem applied at a concrete input. -/
theorem c2_witness :
    (Transaction.mk "2024-01-01" "$5 lunch" 5 "USD" Option.none).description =
      pyStrip "$5 lunch" :=
  c2_thm "$5 lunch" "2024-01-01" _
    (by rw [parse_sms_eval_pos _ _ 5 "USD" (by decide) (by decide) (by decide)]; decide)

/-- C3 counterexample: `"declined"` is not in the code's
`ignore_keywords`, so a message containing it and a valid amount still
produces a record (the claim demands `None`). -/
theorem c3_counterexample :
    parse_sms "declined USD 50" "2024-01-01" =
      ParseResult.some
        { date := "2024-01-01", description := "declined USD 50",
          amount := 50, currency := "USD" } := by
  rw [parse_sms_eval_pos _ _ 50 "USD" (by decide) (by decide) (by decide)]
  decide

/-- C3 (amended): for every input containing one of the code's
negative-outcome keywords {failed, reversed, reversal} (as a
substring of the lower-cased text), `parse` returns no record, even
when a valid amount is present. -/
theorem c3_thm (msg today : String)
    (h : hasKeyword ignore_keywords (lowerList msg) = true) :
    parse_sms msg today = ParseResult.none := by
  simp only [parse_sms, parse_message, h]
  rfl

/-- C3 witness: the amended theorem applied at a concrete input. -/
theorem c3_witness :
    hasKeyword ignore_keywords (lowerList "Your payment of $20 has failed") = true ∧
    parse_sms "Your payment of $20 has failed" "2024-01-01" = ParseResult.none :=
  ⟨by decide, c3_thm "Your payment of $20 has failed" "2024-01-01" (by decide)⟩

/-- C4 counterexample: `"payment"` is not in the code's
`debit_keywords`, so this message parses to a positive amount (the
claim demands a negative one). -/
theorem c4_counterexample :
    parse_sms "payment of USD 50" "2024-01-01" =
      ParseResult.some
        { date := "2024-01-01", description := "payment of USD 50",
          amount := 50, currency := "USD" } ∧
    ¬((50 : ℚ) < 0) := by
  refine ⟨?_, by norm_num⟩
  rw [parse_sms_eval_pos _ _ 50 "USD" (by decide) (by decide) (by decide)]
  decide

/-- C4 (amended): for every parsed record whose message contains one of
the code's debit keywords {debit, debited, withdrawn, purchase,
spent}, the amount is forced negative whenever the matched (unsigned)
numeral is positive. -/
theorem c4_thm (msg today : String) (t : Transaction) (q : ℚ) (c : String)
    (h : parse_sms msg today = ParseResult.some t)
    (hd : hasKeyword debit_keywords (lowerList msg) = true)
    (ha : parse_amount msg = AmountResult.ok q c)
    (hq : 0 < q) :
    t.amount < 0 := by
  by_cases hi : hasKeyword ignore_keywords (lowerList msg) = true
  · rw [parse_sms_eval_ignore msg today hi] at h
    exact ParseResult.noConfusion h
  · rw [parse_sms_eval_neg msg today q c (Bool.eq_false_iff.mpr hi) ha hd] at h
    injection h with h2
    subst h2
    show -q < 0
    exact neg_neg_of_pos hq

/-- C4 witness: the amended theorem applied at a concrete input. -/
theorem c4_witness :
    (Transaction.mk "2024-01-01" "debited USD 5" (-5) "USD" Option.none).amount < 0 :=
  c4_thm "debited USD 5" "2024-01-01" _ 5 "USD"
    (by rw [parse_sms_eval_neg _ _ 5 "USD" (by decide) (by decide) (by decide)]; decide)
    (by decide) (by decide) (by norm_num)

/-- C5 counterexample: on the scenario input the code does not produce
the record the claim describes (`amount_re` matches `"cct 1234"`
inside `"Acct 1234"` first, so the amount is -1234 and the currency
`"CCT"`, and the description is the whole message). -/
theorem c5_counterexample :
    parse_sms "Acct 1234 debited with INR 1,234.56 at Amazon on 12-05-2023" "2024-01-01" ≠
      ParseResult.some
        { date := "2023-05-12", description := "Amazon",
          amount := -mkRat 123456 100, currency := "INR" } := by
  rw [parse_sms_eval_neg _ _ 1234 "CCT" (by decide) (by decide) (by decide),
    extract_date_of_token _ _ "12-05-2023".toList (by decide)]
  decide

/-- C5 (amended): parsing
`"Acct 1234 debited with INR 1,234.56 at Amazon on 12-05-2023"` yields
amount -1234, currency `"CCT"` (the leftmost `amount_re` match is the
letters `cct` of `Acct` followed by `1234`), the whole message as
description, and date `"2023-05-12"` — for any value of the clock. -/
theorem c5_thm (today : String) :
    parse_sms "Acct 1234 debited with INR 1,234.56 at Amazon on 12-05-2023" today =
      ParseResult.some
        { date := "2023-05-12",
          description := "Acct 1234 debited with INR 1,234.56 at Amazon on 12-05-2023",
          amount := -1234, currency := "CCT" } := by
  rw [parse_sms_eval_neg _ _ 1234 "CCT" (by decide) (by decide) (by decide),
    extract_date_of_token _ _ "12-05-2023".toList (by decide)]
  decide

/-- C6: the code can raise.  On the input `"USD ,"` the amount group of
`amount_re` matches the bare comma, `replace` strips it, and
`float("")` raises `ValueError`, escaping `parse` (the spec requires
`parse` never to raise). -/
theorem c6_thm : parse_sms "USD ," "2024-01-01" = ParseResult.raised := by
  decide

/-- C7 counterexample: for a message with no date-shaped substring the
record's date is the wall-clock date, so the same text parsed on two
different days yields different records. -/
theorem c7_counterexample :
    parse_sms "USD 50" "2024-01-01" ≠ parse_sms "USD 50" "2024-01-02" := by
  rw [parse_sms_eval_pos _ _ 50 "USD" (by decide) (by decide) (by decide),
    parse_sms_eval_pos _ _ 50 "USD" (by decide) (by decide) (by decide)]
  decide

/-- Helper for C7: when some `date_res` pattern matches the message,
`_extract_date` never consults the clock. -/
theorem extract_date_ignores_clock (msg t1 t2 : String)
    (h : findDateToken msg.toList ≠ Option.none) :
    extract_date msg t1 = extract_date msg t2 := by
  unfold extract_date
  cases hm : findDateToken msg.toList with
  | none => exact absurd hm h
  | some m => rfl

/-- C7 (amended): parsing is deterministic in the text and the current
UTC date; in particular, for every message containing a date-shaped
substring the result is independent of when the parse runs. -/
theorem c7_thm (msg t1 t2 : String)
    (h : findDateToken msg.toList ≠ Option.none) :
    parse_sms msg t1 = parse_sms msg t2 := by
  unfold parse_sms parse_message
  rw [extract_date_ignores_clock msg t1 t2 h]

/-- C7 witness: the amended theorem applied at a concrete input. -/
theorem c7_witness :
    parse_sms "USD 5 on 12-05-2023" "2024-01-01" =
      parse_sms "USD 5 on 12-05-2023" "2025-06-06" :=
  c7_thm "USD 5 on 12-05-2023" "2024-01-01" "2025-06-06" (by decide)

/-- C8 counterexample: `"USD 0"` parses successfully to a record whose
amount is zero (the claim says a successful parse never yields a
zero amount). -/
theorem c8_counterexample :
    parse_sms "USD 0" "2024-01-01" =
      ParseResult.some
        { date := "2024-01-01", description := "USD 0",
          amount := 0, currency := "USD" } := by
  rw [parse_sms_eval_pos _ _ 0 "USD" (by decide) (by decide) (by decide)]
  decide

/-- C8 (amended): a record is produced only when `amount_re` matched
and the numeral converted, and its amount is the parsed numeral up to
sign — which may be zero, as `"USD 0"` shows. -/
theorem c8_thm (msg today : String) (t : Transaction)
    (h : parse_sms msg today = ParseResult.some t) :
    ∃ q c, parse_amount msg = AmountResult.ok q c ∧ (t.amount = q ∨ t.amount = -q) := by
  simp only [parse_sms, parse_message] at h
  split at h
  · exact ParseResult.noConfusion h
  · split at h
    · exact ParseResult.noConfusion h
    · exact ParseResult.noConfusion h
    · rename_i q c heq
      refine ⟨q, c, heq, ?_⟩
      injection h with h2
      subst h2
      show ((if hasKeyword debit_keywords (lowerList msg) = true then (-1 : ℚ)
             else if hasKeyword credit_keywords (lowerList msg) = true then 1 else 1) * q = q) ∨
           ((if hasKeyword debit_keywords (lowerList msg) = true then (-1 : ℚ)
             else if hasKeyword credit_keywords (lowerList msg) = true then 1 else 1) * q = -q)
      split
      · exact Or.inr (neg_one_mul q)
      · split
        · exact Or.inl (one_mul q)
        · exact Or.inl (one_mul q)

/-- C8 witness: the amended theorem applied at a concrete input. -/
theorem c8_witness :
    ∃ q c, parse_amount "USD 0" = AmountResult.ok q c ∧
      ((Transaction.mk "2024-01-01" "USD 0" 0 "USD" Option.none).amount = q ∨
       (Transaction.mk "2024-01-01" "USD 0" 0 "USD" Option.none).amount = -q) :=
  c8_thm "USD 0" "2024-01-01" _
    (by rw [parse_sms_eval_pos _ _ 0 "USD" (by decide) (by decide) (by decide)]; decide)

/-- C9 counterexample: a candidate polled and forwarded before the
crash is forwarded to the ledger again by the restarted task group,
because the restarted generator starts with a fresh empty `seen` set
(the claim says a key seen before the crash is never forwarded again). -/
theorem c9_counterexample :
    streamRun [[Transaction.mk "2023-01-01" "shop" (-5) "USD" Option.none]] =
      [Transaction.mk "2023-01-01" "shop" (-5) "USD" Option.none] ∧
    supervisorForwarded
        [[Transaction.mk "2023-01-01" "shop" (-5) "USD" Option.none]]
        [[Transaction.mk "2023-01-01" "shop" (-5) "USD" Option.none]] =
      [Transaction.mk "2023-01-01" "shop" (-5) "USD" Option.none,
       Transaction.mk "2023-01-01" "shop" (-5) "USD" Option.none] := by
  refine ⟨by decide, by decide⟩

/-- C9 (amended): deduplication state does not survive supervisor
restarts — the `seen` set is local to each generator instance, so after
a restart any polled candidate is forwarded regardless of what was seen
before the crash. -/
theorem c9_thm (beforeCrash : List (List Transaction)) (t : Transaction) :
    supervisorForwarded beforeCrash [[t]] = streamRun beforeCrash ++ [t] := by
  rfl

/-- C10: the two public entry points `parse_sms` and `parse_email` are
extensionally equal; both delegate to `_parse_message`. -/
theorem c10_thm (msg today : String) : parse_sms msg today = parse_email msg today :=
  rfl

end BudgetApp
